import Mathlib

/-!
Verification of the WinML image-feature-value conversion pipeline
(`winml/lib/Api/ImageFeatureValue.cpp`): metadata resolution, center-crop
bounds computation, pixel-format selection, CPU/GPU tensorization layout,
and converter-pool lifetime behavior.

Modelling conventions:
* Machine integers (`uint32_t`, `int64_t`) are modelled as `Nat` / `Int`;
  the only narrowing cast in the modelled code, `static_cast<uint32_t>` of
  an `int64_t`, is modelled as reduction modulo `2 ^ 32`.
* The `float` arithmetic in `CenterAndCropBounds` is idealized as exact
  rational arithmetic (`ℚ`), following the specification's description of
  the aspect ratio as real-valued.  The C-style `(UINT)(x + 0.5f)` cast of
  a non-negative value is floor of `x + 1/2`, i.e. round-half-up.
* Fallible code (`THROW_HR`, `WINML_THROW_HR_IF_FALSE_MSG`, `RETURN_HR_IF`,
  `FAIL_FAST_IF`, `std::optional::value()` on an empty optional) is
  modelled with `Except WinMLError`.  The soft "not applicable" outcome
  (`return {}` of `GetInputMetadata`) is `.ok none`, distinct from every
  `.error` case.
-/

/-- Error conditions surfaced by the modelled code paths. -/
inductive WinMLError
  /-- `E_INVALIDARG`, thrown by the free-dimension checks and returned by
  `GetOrtValue` when the resolver declines. -/
  | invalidArg
  /-- `WINML_ERR_INVALID_BINDING`. -/
  | invalidBinding
  /-- `WINML_ERR_SIZE_MISMATCH`. -/
  | sizeMismatch
  /-- `E_NOTIMPL`, thrown by `CreateImageTensorDescriptor` on an
  unsupported pixel format. -/
  | notImpl
  /-- `std::bad_optional_access` raised by `std::optional::value()` on an
  empty optional. -/
  | badOptionalAccess
  /-- `FAIL_FAST_IF` abort on a zero-sized frame dimension. -/
  | fatalFailFast
  deriving DecidableEq

/-- The subset of `Windows.Graphics.Imaging.BitmapPixelFormat` values the
model distinguishes: the three formats the pipeline supports plus
representatives of unsupported formats. -/
inductive BitmapPixelFormat
  | rgba8
  | bgra8
  | gray8
  | nv12
  | yuy2
  deriving DecidableEq

/-- Tensor element kinds relevant to the pipeline (`TensorKind`). -/
inductive TensorKind
  | undefined
  | float
  | float16
  | int64Kind
  | uint8Kind
  deriving DecidableEq

/-- `ImageTensorDataType`: the two supported element types. -/
inductive ImageTensorDataType
  | float32
  | float16
  deriving DecidableEq

/-- `ImageTensorChannelType`. -/
inductive ImageTensorChannelType
  | rgb8
  | bgr8
  | gray8
  deriving DecidableEq

/-- `Windows.Graphics.Imaging.BitmapBounds`: a crop rectangle with
unsigned fields. -/
structure BitmapBounds where
  x : Nat
  y : Nat
  width : Nat
  height : Nat
  deriving DecidableEq

/-- `ImageTensorDescription`: data type, channel type and the four NCHW
sizes (`sizes0` = `sizes[0]` = batch, `sizes1` = channels, `sizes2` =
height, `sizes3` = width). -/
structure ImageTensorDescription where
  dataType : ImageTensorDataType
  channelType : ImageTensorChannelType
  sizes0 : Nat
  sizes1 : Nat
  sizes2 : Nat
  sizes3 : Nat
  deriving DecidableEq

/-- `ImageFeatureValue::ImageResourceMetadata`: per-frame crop rectangles
plus the resolved tensor description. -/
structure ImageResourceMetadata where
  bounds : List BitmapBounds
  tensorDescriptor : ImageTensorDescription
  deriving DecidableEq

/-- The model-declared descriptor held by the binding context: an
image-shaped descriptor (`ImageFeatureDescriptor`, whose free sentinel is
`MAXUINT32`), a tensor-shaped descriptor (`TensorFeatureDescriptor`, with
an `int64` shape whose free sentinel is `-1`), or some other descriptor
kind (both `try_as` casts fail). -/
inductive FeatureDescriptor
  | image (width height : Nat) (format : BitmapPixelFormat) (kind : TensorKind)
  | tensor (shape : List Int) (kind : TensorKind)
  | otherDescriptor
  deriving DecidableEq

/-- The caller-supplied property bag, restricted to the two recognized
keys.  `pixelFormatProp` is the value at key `"BitmapPixelFormat"` if
present; `boundsProp` the `UInt32Array` at key `"BitmapBounds"`. -/
structure PropertySet where
  pixelFormatProp : Option BitmapPixelFormat
  boundsProp : Option (List Nat)
  deriving DecidableEq

/-- `BindingType`. -/
inductive BindingType
  | kInput
  | kOutput
  deriving DecidableEq

/-- `WinML::BindingContext`: binding direction, declared descriptor and
property bag (the session and converter fields are modelled separately). -/
structure BindingContext where
  type : BindingType
  descriptor : FeatureDescriptor
  properties : PropertySet
  deriving DecidableEq

/-- The per-frame dimension caches of an `ImageFeatureValue`
(`m_widths` / `m_heights`, parallel to `m_videoFrames`). -/
structure ImageFeatureValueState where
  widths : List Nat
  heights : List Nat
  deriving DecidableEq

/-- `m_batchSize = m_videoFrames.Size()`; `Initialize()` pushes one width
per frame, so the batch size equals the length of `m_widths`. -/
def ImageFeatureValueState.batchSize (v : ImageFeatureValueState) : Nat :=
  v.widths.length

/-- `MAXUINT32`, the free-dimension sentinel of image-shaped
descriptors. -/
def MAXUINT32 : Nat := 2 ^ 32 - 1

/-- `static_cast<uint32_t>` applied to an `int64_t` value. -/
def intToUInt32 (i : Int) : Nat := (i % (2 ^ 32)).toNat

/-- `std::adjacent_find(l.begin(), l.end(), std::not_equal_to) == l.end()`:
no adjacent pair of elements differs, i.e. all elements are equal. -/
def allEqualAdjacent : List Nat → Bool
  | [] => true
  | [_] => true
  | a :: b :: t => a == b && allEqualAdjacent (b :: t)

/-- `GetBitmapPixelFormatFromMetadata`: look up the `"BitmapPixelFormat"`
override; if present it must be one of the three supported formats,
otherwise `WINML_ERR_INVALID_BINDING` is thrown. -/
def GetBitmapPixelFormatFromMetadata (properties : PropertySet) :
    Except WinMLError (Option BitmapPixelFormat) :=
  match properties.pixelFormatProp with
  | none => .ok none
  | some pixelFormat =>
    if pixelFormat = .rgba8 ∨ pixelFormat = .bgra8 ∨ pixelFormat = .gray8 then
      .ok (some pixelFormat)
    else
      .error .invalidBinding

/-- `GetBoundsFromMetadata`: look up the `"BitmapBounds"` override; if
present it must be a `UInt32Array` with exactly 4 elements, otherwise
`WINML_ERR_INVALID_BINDING` is thrown.  The four elements are read as
`{x, y, width, height}`. -/
def GetBoundsFromMetadata (properties : PropertySet) :
    Except WinMLError (Option BitmapBounds) :=
  match properties.boundsProp with
  | none => .ok none
  | some bounds =>
    match bounds with
    | [b0, b1, b2, b3] => .ok (some ⟨b0, b1, b2, b3⟩)
    | _ => .error .invalidBinding

/-- `(UINT)(q + 0.5f)` for a non-negative scaled dimension `q`:
round-half-up, idealized over `ℚ`. -/
def roundHalfUp (q : ℚ) : Nat := (⌊q + 1 / 2⌋).toNat

/-- The candidate rectangle computed by the body of
`ImageFeatureValue::CenterAndCropBounds` before its post-condition check.
`RequiredAspectRatio = desiredWidth / desiredHeight`; if
`RequiredAspectRatio * frameHeight < frameWidth` the frame is relatively
too wide and is cropped left/right, otherwise top/bottom. -/
def centerCropCandidate (frameWidth frameHeight desiredWidth desiredHeight : Nat) :
    BitmapBounds :=
  let RequiredAspectRatio : ℚ := (desiredWidth : ℚ) / (desiredHeight : ℚ)
  if RequiredAspectRatio * (frameHeight : ℚ) < (frameWidth : ℚ) then
    let w := min (roundHalfUp (RequiredAspectRatio * (frameHeight : ℚ))) frameWidth
    { x := (frameWidth - w) / 2, y := 0, width := w, height := frameHeight }
  else
    let h := min (roundHalfUp ((frameWidth : ℚ) / RequiredAspectRatio)) frameHeight
    { x := 0, y := (frameHeight - h) / 2, width := frameWidth, height := h }

/-- `ImageFeatureValue::CenterAndCropBounds` for the frame with the given
cached dimensions: compute the candidate rectangle, then check the
post-condition `X >= 0 && X <= width && Y >= 0 && Y <= height`
(non-negativity is automatic for unsigned values), throwing
`WINML_ERR_INVALID_BINDING` on violation. -/
def CenterAndCropBounds (frameWidth frameHeight desiredWidth desiredHeight : Nat) :
    Except WinMLError BitmapBounds :=
  let bounds := centerCropCandidate frameWidth frameHeight desiredWidth desiredHeight
  if bounds.x ≤ frameWidth ∧ bounds.y ≤ frameHeight then
    .ok bounds
  else
    .error .invalidBinding

/-- `GetTensorDataTypeFromTensorKind`: only `Float` and `Float16` are
accepted; anything else throws `WINML_ERR_INVALID_BINDING`. -/
def GetTensorDataTypeFromTensorKind (kind : TensorKind) :
    Except WinMLError ImageTensorDataType :=
  match kind with
  | .float => .ok .float32
  | .float16 => .ok .float16
  | _ => .error .invalidBinding

/-- `GetSizeFromTensorDataType`: element byte size
(`sizeof(float)` = 4, `sizeof(uint16_t)` = 2). -/
def GetSizeFromTensorDataType (type : ImageTensorDataType) : Nat :=
  match type with
  | .float32 => 4
  | .float16 => 2

/-- `CreateImageTensorDescriptor`: derive data type from the tensor kind,
channel type and channel count from the pixel format (3 for `Rgba8` and
`Bgra8`, 1 for `Gray8`; anything else throws `E_NOTIMPL`), and fill the
NCHW sizes `[batchSize, channels, height, width]`. -/
def CreateImageTensorDescriptor (tensorKind : TensorKind)
    (pixelFormat : BitmapPixelFormat) (batchSize width height : Nat) :
    Except WinMLError ImageTensorDescription :=
  match GetTensorDataTypeFromTensorKind tensorKind with
  | .error e => .error e
  | .ok dataType =>
    match pixelFormat with
    | .rgba8 => .ok ⟨dataType, .rgb8, batchSize, 3, height, width⟩
    | .bgra8 => .ok ⟨dataType, .bgr8, batchSize, 3, height, width⟩
    | .gray8 => .ok ⟨dataType, .gray8, batchSize, 1, height, width⟩
    | _ => .error .notImpl

/-- The pixel-format selection of `GetInputMetadata` (source lines
475-492): (1) the validated property-bag override; (2) otherwise the image
descriptor's declared format; (3) otherwise inferred from the tensor
descriptor's channel count (`shape[1]` cast to `uint32_t`): 1 infers
`Gray8`, 3 infers `Bgra8`, anything else throws
`WINML_ERR_SIZE_MISMATCH`.  If neither descriptor cast succeeded the
subsequent `pixelFormat.value()` would raise `bad_optional_access`
(unreachable, since `GetInputMetadata` has already returned by then). -/
def resolvePixelFormat (context : BindingContext) :
    Except WinMLError BitmapPixelFormat :=
  match GetBitmapPixelFormatFromMetadata context.properties with
  | .error e => .error e
  | .ok (some pixelFormat) => .ok pixelFormat
  | .ok none =>
    match context.descriptor with
    | .image _ _ format _ => .ok format
    | .tensor shape _ =>
      let channelCount := intToUInt32 (shape.getD 1 0)
      if channelCount = 1 then .ok .gray8
      else if channelCount = 3 then .ok .bgra8
      else .error .sizeMismatch
    | .otherDescriptor => .error .badOptionalAccess

/-- One iteration of the bounds loop of `GetInputMetadata` (source lines
456-470): take the override bounds if supplied, else the center-crop
rectangle for an input binding, else the full-frame rectangle at the
origin for an output binding. -/
def resolveBoundsFor (v : ImageFeatureValueState) (context : BindingContext)
    (descriptorWidth descriptorHeight i : Nat) :
    Except WinMLError BitmapBounds :=
  match GetBoundsFromMetadata context.properties with
  | .error e => .error e
  | .ok (some tempBounds) => .ok tempBounds
  | .ok none =>
    match context.type with
    | .kInput =>
      CenterAndCropBounds (v.widths.getD i 0) (v.heights.getD i 0)
        descriptorWidth descriptorHeight
    | .kOutput => .ok ⟨0, 0, v.widths.getD i 0, v.heights.getD i 0⟩

/-- The bounds loop of `GetInputMetadata`: one rectangle per batch index,
starting at `i` with `n` frames remaining, aborting on the first
failure. -/
def resolveBoundsLoop (v : ImageFeatureValueState) (context : BindingContext)
    (descriptorWidth descriptorHeight : Nat) : Nat → Nat → Except WinMLError (List BitmapBounds)
  | _, 0 => .ok []
  | i, n + 1 =>
    match resolveBoundsFor v context descriptorWidth descriptorHeight i with
    | .error e => .error e
    | .ok b =>
      match resolveBoundsLoop v context descriptorWidth descriptorHeight (i + 1) n with
      | .error e => .error e
      | .ok bs => .ok (b :: bs)

/-- The full bounds list: the loop over batch indices `0 .. m_batchSize - 1`. -/
def resolveBounds (v : ImageFeatureValueState) (context : BindingContext)
    (descriptorWidth descriptorHeight : Nat) : Except WinMLError (List BitmapBounds) :=
  resolveBoundsLoop v context descriptorWidth descriptorHeight 0 v.batchSize

/-- The tail of `GetInputMetadata` common to both descriptor shapes once
`descriptorWidth`, `descriptorHeight` and `tensorKind` are fixed: build
the crop-rectangle list, select the pixel format, and create the NCHW
tensor description. -/
def finishMetadata (v : ImageFeatureValueState) (context : BindingContext)
    (descriptorWidth descriptorHeight : Nat) (tensorKind : TensorKind) :
    Except WinMLError (Option ImageResourceMetadata) :=
  match resolveBounds v context descriptorWidth descriptorHeight with
  | .error e => .error e
  | .ok bounds =>
    match resolvePixelFormat context with
    | .error e => .error e
    | .ok pixelFormat =>
      match CreateImageTensorDescriptor tensorKind pixelFormat v.batchSize
          descriptorWidth descriptorHeight with
      | .error e => .error e
      | .ok imageTensorDescriptor => .ok (some ⟨bounds, imageTensorDescriptor⟩)

/-- `ImageFeatureValue::GetInputMetadata`.  An image-shaped descriptor
uses its declared width/height, with `MAXUINT32` meaning "free": a free
axis requires all frames to agree on that axis (`E_INVALIDARG` otherwise)
and resolves to the first frame's value.  A tensor-shaped descriptor must
have exactly 4 axes and channel axis 1 or 3 — otherwise the resolver
declines with the soft `.ok none` — and uses `-1` as the free sentinel on
`shape[3]` (width) and `shape[2]` (height) with the same agreement rule.
Any other descriptor kind also yields `.ok none`. -/
def GetInputMetadata (v : ImageFeatureValueState) (context : BindingContext) :
    Except WinMLError (Option ImageResourceMetadata) :=
  match context.descriptor with
  | .image dWidth dHeight _ dKind =>
    if dWidth = MAXUINT32 ∧ allEqualAdjacent v.widths = false then
      .error .invalidArg
    else if dHeight = MAXUINT32 ∧ allEqualAdjacent v.heights = false then
      .error .invalidArg
    else
      finishMetadata v context
        (if dWidth = MAXUINT32 then v.widths.headD 0 else dWidth)
        (if dHeight = MAXUINT32 then v.heights.headD 0 else dHeight)
        dKind
  | .tensor shape dKind =>
    if shape.length ≠ 4 then
      .ok none
    else if ¬(shape.getD 1 0 = 3 ∨ shape.getD 1 0 = 1) then
      .ok none
    else if shape.getD 3 0 = -1 ∧ allEqualAdjacent v.widths = false then
      .error .invalidArg
    else if shape.getD 2 0 = -1 ∧ allEqualAdjacent v.heights = false then
      .error .invalidArg
    else
      finishMetadata v context
        (if shape.getD 3 0 = -1 then v.widths.headD 0 else intToUInt32 (shape.getD 3 0))
        (if shape.getD 2 0 = -1 then v.heights.headD 0 else intToUInt32 (shape.getD 2 0))
        dKind
  | .otherDescriptor => .ok none

/-- One recorded buffer access of a per-frame conversion: which frame was
converted and at which byte offset of the tensor buffer. -/
structure FrameWrite where
  frameIdx : Nat
  offset : Nat
  deriving DecidableEq

/-- The batched `CPUTensorize` loop (source lines 341-345): starting at
frame `batchIdx` with the running destination pointer `ptr`, convert each
remaining frame in batch order and advance the pointer by
`singleFrameBufferSize` after each frame. -/
def CPUTensorizeBatch (batchIdx ptr singleFrameBufferSize : Nat) :
    Nat → List FrameWrite
  | 0 => []
  | n + 1 =>
    ⟨batchIdx, ptr⟩ ::
      CPUTensorizeBatch (batchIdx + 1) (ptr + singleFrameBufferSize)
        singleFrameBufferSize n

/-- Modelled from the spec: the converter slot of `WinML::BindingContext`
and the pool-return behavior of `PoolObjectWrapper` are declared outside
this source file.  Per the specification, a checked-out converter wrapper
is returned to the pool exactly once, when the last reference to the
wrapper is dropped; `context.converter` is a single slot, so assigning it
drops the reference to the wrapper previously stored there.  The state of
the `GPUTensorize` loop is the wrapper currently cached on the binding
context (identified by the batch index that fetched it) together with the
list of wrappers already returned to the pool, in return order. -/
structure GpuConverterState where
  contextConverter : Option Nat
  returnedToPool : List Nat
  deriving DecidableEq

/-- The `GPUTensorize` loop (source lines 371-394): for each frame, fetch
a pooled converter wrapper, submit the asynchronous conversion, and cache
the wrapper on the binding context with `context.converter =
pooledConverter` — overwriting the slot, which releases the wrapper cached
by the previous iteration back to the pool. -/
def gpuTensorizeLoop (slot : Option Nat) (returned : List Nat) :
    Nat → Nat → GpuConverterState
  | _, 0 => ⟨slot, returned⟩
  | batchIdx, n + 1 =>
    match slot with
    | none => gpuTensorizeLoop (some batchIdx) returned (batchIdx + 1) n
    | some prev => gpuTensorizeLoop (some batchIdx) (returned ++ [prev]) (batchIdx + 1) n

/-- `GPUTensorize` over a batch, starting from the binding context's
current converter slot. -/
def GPUTensorize (batchSize : Nat) (slot : Option Nat) : GpuConverterState :=
  gpuTensorizeLoop slot [] 0 batchSize

/-- The caller's signal that the execution run has finished
(`context.converter = nullptr` at the end of `UpdateSourceResourceData`):
the wrapper still cached on the binding context, if any, is released to
the pool. -/
def EvaluateComplete (st : GpuConverterState) : GpuConverterState :=
  ⟨none, st.returnedToPool ++ st.contextConverter.toList⟩

/-- The outcome of `ImageFeatureValue::GetOrtValue` relevant to binding:
the resolved metadata, the total and per-frame byte sizes of the
allocated tensor, the CPU-path tensorize accesses, and the GPU-path
converter state left on the binding context. -/
structure BindResult where
  metadata : ImageResourceMetadata
  bufferByteSize : Nat
  singleFrameBufferSize : Nat
  cpuWrites : List FrameWrite
  gpuState : GpuConverterState
  deriving DecidableEq

/-- `ImageFeatureValue::GetOrtValue`: fail fast on any zero cached frame
dimension; resolve metadata, reporting `E_INVALIDARG` when the resolver
declines (`.ok none`); compute the buffer byte size as element size times
the product of the four NCHW sizes and the per-frame size as its quotient
by the batch size; then tensorize inputs on the CPU or GPU path (outputs
are not tensorized). -/
def GetOrtValue (v : ImageFeatureValueState) (context : BindingContext)
    (isCpuDevice : Bool) : Except WinMLError BindResult :=
  if v.widths.all (fun i => i != 0) = false then .error .fatalFailFast
  else if v.heights.all (fun i => i != 0) = false then .error .fatalFailFast
  else
    match GetInputMetadata v context with
    | .error e => .error e
    | .ok none => .error .invalidArg
    | .ok (some resourceMetadata) =>
      let bufferSize := resourceMetadata.tensorDescriptor.sizes0 *
        resourceMetadata.tensorDescriptor.sizes1 *
        resourceMetadata.tensorDescriptor.sizes2 *
        resourceMetadata.tensorDescriptor.sizes3
      let bufferByteSize :=
        GetSizeFromTensorDataType resourceMetadata.tensorDescriptor.dataType * bufferSize
      let singleFrameBufferSize := bufferByteSize / v.batchSize
      match context.type, isCpuDevice with
      | .kInput, true =>
        .ok ⟨resourceMetadata, bufferByteSize, singleFrameBufferSize,
          CPUTensorizeBatch 0 0 singleFrameBufferSize v.batchSize, ⟨none, []⟩⟩
      | .kInput, false =>
        .ok ⟨resourceMetadata, bufferByteSize, singleFrameBufferSize, [],
          GPUTensorize v.batchSize none⟩
      | .kOutput, _ =>
        .ok ⟨resourceMetadata, bufferByteSize, singleFrameBufferSize, [], ⟨none, []⟩⟩

/-- The memory location reported for the output tensor
(`GetValueMemoryInfo`): the CPU allocator name or the two CPU-accessible
memory types take the CPU path; anything else takes the GPU path. -/
inductive MemoryKind
  | cpuDefault
  | cpuOutput
  | cpuInput
  | gpuResident
  deriving DecidableEq

/-- The outcome of `ImageFeatureValue::UpdateSourceResourceData`: the
resolved metadata, the CPU-path per-frame read offsets, the number of
`SyncD3D12ToCPU` barriers issued (one per frame on the GPU path), and the
fact that the binding context's converter slot was cleared at the end. -/
structure UpdateResult where
  metadata : ImageResourceMetadata
  cpuReads : List FrameWrite
  syncPoints : Nat
  converterCleared : Bool
  deriving DecidableEq

/-- `ImageFeatureValue::UpdateSourceResourceData`: resolve metadata with
`GetInputMetadata` and immediately call `metadata.value()` on the result
with no guard — a declined resolution (`.ok none`) therefore raises
`std::bad_optional_access` instead of the typed `E_INVALIDARG` that
`GetOrtValue` reports.  On success, a CPU-located tensor is detensorized
frame by frame at per-frame byte offsets; a GPU-located tensor is
detensorized with one synchronous `SyncD3D12ToCPU` barrier per frame; in
both cases `context.converter = nullptr` finally releases any converter
held on the binding context. -/
def UpdateSourceResourceData (v : ImageFeatureValueState)
    (context : BindingContext) (memLoc : MemoryKind) :
    Except WinMLError UpdateResult :=
  match GetInputMetadata v context with
  | .error e => .error e
  | .ok none => .error .badOptionalAccess
  | .ok (some resourceMetadata) =>
    match memLoc with
    | .gpuResident => .ok ⟨resourceMetadata, [], v.batchSize, true⟩
    | _ =>
      let bufferByteSize :=
        GetSizeFromTensorDataType resourceMetadata.tensorDescriptor.dataType *
          (resourceMetadata.tensorDescriptor.sizes0 *
           resourceMetadata.tensorDescriptor.sizes1 *
           resourceMetadata.tensorDescriptor.sizes2 *
           resourceMetadata.tensorDescriptor.sizes3) / v.batchSize
      .ok ⟨resourceMetadata, CPUTensorizeBatch 0 0 bufferByteSize v.batchSize, 0, true⟩

/-- Modelled from the spec: the center-crop algorithm as the specification
states it, for comparison with the source's `CenterAndCropBounds`.  With
real-valued `r = target_width / target_height`: if `r * frame_height <
frame_width`, crop width is `min(round-half-up(r * frame_height),
frame_width)`, crop height is `frame_height`, the horizontal offset is
`(frame_width - crop_width) / 2` with flooring integer division and the
vertical offset is 0; otherwise the symmetric computation on the height
axis. -/
def computeCenterCropSpec (frameWidth frameHeight targetWidth targetHeight : Nat) :
    BitmapBounds :=
  let r : ℚ := (targetWidth : ℚ) / (targetHeight : ℚ)
  if r * (frameHeight : ℚ) < (frameWidth : ℚ) then
    let cropWidth := min (roundHalfUp (r * (frameHeight : ℚ))) frameWidth
    ⟨(frameWidth - cropWidth) / 2, 0, cropWidth, frameHeight⟩
  else
    let cropHeight := min (roundHalfUp ((frameWidth : ℚ) / r)) frameHeight
    ⟨0, (frameHeight - cropHeight) / 2, frameWidth, cropHeight⟩

lemma roundHalfUp_le {q : ℚ} {n : ℕ} (h : q ≤ n) : roundHalfUp q ≤ n := by
  have h1 : ⌊q + 1 / 2⌋ < (n : ℤ) + 1 := by
    rw [Int.floor_lt]
    push_cast
    linarith
  unfold roundHalfUp
  omega

lemma roundHalfUp_near {q : ℚ} (hq : 0 ≤ q) :
    q - 1 / 2 ≤ (roundHalfUp q : ℚ) ∧ (roundHalfUp q : ℚ) ≤ q + 1 / 2 := by
  have h0 : (0 : ℤ) ≤ ⌊q + 1 / 2⌋ := Int.floor_nonneg.mpr (by linarith)
  have hcast : ((roundHalfUp q : ℕ) : ℚ) = ((⌊q + 1 / 2⌋ : ℤ) : ℚ) := by
    unfold roundHalfUp
    exact_mod_cast congrArg (fun z : ℤ => (z : ℚ)) (Int.toNat_of_nonneg h0)
  constructor
  · have h2 := Int.lt_floor_add_one (q + 1 / 2)
    rw [hcast]
    push_cast at h2 ⊢
    linarith
  · have h2 := Int.floor_le (q + 1 / 2)
    rw [hcast]
    linarith

lemma centerCropCandidate_within (W H tw th : ℕ) :
    (centerCropCandidate W H tw th).x + (centerCropCandidate W H tw th).width ≤ W ∧
    (centerCropCandidate W H tw th).y + (centerCropCandidate W H tw th).height ≤ H := by
  simp only [centerCropCandidate]
  split_ifs with h
  · dsimp only
    have hmin : min (roundHalfUp ((tw : ℚ) / (th : ℚ) * (H : ℚ))) W ≤ W := Nat.min_le_right _ _
    omega
  · dsimp only
    have hmin : min (roundHalfUp ((W : ℚ) / ((tw : ℚ) / (th : ℚ)))) H ≤ H := Nat.min_le_right _ _
    omega

lemma CenterAndCropBounds_ok (W H tw th : ℕ) :
    CenterAndCropBounds W H tw th = .ok (centerCropCandidate W H tw th) := by
  have hin := centerCropCandidate_within W H tw th
  unfold CenterAndCropBounds
  rw [if_pos ⟨by omega, by omega⟩]

lemma centerCropCandidate_aspect (W H tw th : ℕ) (htw : tw ≠ 0) (hth : th ≠ 0) :
    (((centerCropCandidate W H tw th).width : ℤ) * th -
      tw * ((centerCropCandidate W H tw th).height : ℤ)).natAbs ≤ max tw th := by
  have hth0 : (0 : ℚ) < (th : ℚ) := by exact_mod_cast Nat.pos_of_ne_zero hth
  have htw0 : (0 : ℚ) < (tw : ℚ) := by exact_mod_cast Nat.pos_of_ne_zero htw
  simp only [centerCropCandidate]
  split_ifs with hlt
  · dsimp only
    have hq0 : (0 : ℚ) ≤ (tw : ℚ) / (th : ℚ) * (H : ℚ) := by positivity
    have hle : roundHalfUp ((tw : ℚ) / (th : ℚ) * (H : ℚ)) ≤ W := roundHalfUp_le (le_of_lt hlt)
    rw [Nat.min_eq_left hle]
    have hnear := roundHalfUp_near hq0
    have hqth : (tw : ℚ) / (th : ℚ) * (H : ℚ) * (th : ℚ) = (tw : ℚ) * (H : ℚ) := by
      field_simp
    have h1 : ((roundHalfUp ((tw : ℚ) / (th : ℚ) * (H : ℚ)) : ℕ) : ℚ) * th ≤
        (tw : ℚ) * H + th / 2 := by nlinarith [hnear.2]
    have h2 : (tw : ℚ) * H - th / 2 ≤
        ((roundHalfUp ((tw : ℚ) / (th : ℚ) * (H : ℚ)) : ℕ) : ℚ) * th := by nlinarith [hnear.1]
    have hz1 : ((roundHalfUp ((tw : ℚ) / (th : ℚ) * (H : ℚ)) : ℕ) : ℤ) * th - tw * H ≤ (th : ℤ) := by
      have hq : ((roundHalfUp ((tw : ℚ) / (th : ℚ) * (H : ℚ)) : ℕ) : ℚ) * th - tw * H ≤ (th : ℚ) := by
        linarith
      exact_mod_cast hq
    have hz2 : -(th : ℤ) ≤ ((roundHalfUp ((tw : ℚ) / (th : ℚ) * (H : ℚ)) : ℕ) : ℤ) * th - tw * H := by
      have hq : -(th : ℚ) ≤ ((roundHalfUp ((tw : ℚ) / (th : ℚ) * (H : ℚ)) : ℕ) : ℚ) * th - tw * H := by
        linarith
      exact_mod_cast hq
    omega
  · dsimp only
    push_neg at hlt
    have hweq : (W : ℚ) / ((tw : ℚ) / (th : ℚ)) = (W : ℚ) * th / tw := by
      field_simp
    have hq0 : (0 : ℚ) ≤ (W : ℚ) * (th : ℚ) / (tw : ℚ) := by positivity
    have hWth : (W : ℚ) * th ≤ (tw : ℚ) * H := by
      have h3 : (W : ℚ) * th ≤ (tw : ℚ) / th * H * th := by nlinarith
      have h4 : (tw : ℚ) / th * H * th = (tw : ℚ) * H := by field_simp
      linarith [h3, h4.symm.le, h4.le]
    have hle : roundHalfUp ((W : ℚ) / ((tw : ℚ) / (th : ℚ))) ≤ H := by
      rw [hweq]
      refine roundHalfUp_le ?_
      rw [div_le_iff₀ htw0]
      nlinarith
    rw [Nat.min_eq_left hle, hweq]
    have hnear := roundHalfUp_near hq0
    have hqtw : (W : ℚ) * th / tw * tw = (W : ℚ) * th := by field_simp
    have h1 : ((roundHalfUp ((W : ℚ) * (th : ℚ) / (tw : ℚ)) : ℕ) : ℚ) * tw ≤
        (W : ℚ) * th + tw / 2 := by nlinarith [hnear.2]
    have h2 : (W : ℚ) * th - tw / 2 ≤
        ((roundHalfUp ((W : ℚ) * (th : ℚ) / (tw : ℚ)) : ℕ) : ℚ) * tw := by nlinarith [hnear.1]
    have hz1 : (W : ℤ) * th - tw * ((roundHalfUp ((W : ℚ) * (th : ℚ) / (tw : ℚ)) : ℕ) : ℤ) ≤ (tw : ℤ) := by
      have hq : (W : ℚ) * th - tw * ((roundHalfUp ((W : ℚ) * (th : ℚ) / (tw : ℚ)) : ℕ) : ℚ) ≤ (tw : ℚ) := by
        nlinarith [h2]
      exact_mod_cast hq
    have hz2 : -(tw : ℤ) ≤ (W : ℤ) * th - tw * ((roundHalfUp ((W : ℚ) * (th : ℚ) / (tw : ℚ)) : ℕ) : ℤ) := by
      have hq : -(tw : ℚ) ≤ (W : ℚ) * th - tw * ((roundHalfUp ((W : ℚ) * (th : ℚ) / (tw : ℚ)) : ℕ) : ℚ) := by
        nlinarith [h1]
      exact_mod_cast hq
    omega

/-- Claim C3: for every frame with nonzero width `W` and height `H` and
every nonzero target `(tw, th)`, `CenterAndCropBounds` succeeds and
returns a rectangle with `0 ≤ x`, `0 ≤ y` (automatic for `Nat` fields),
`x + crop_w ≤ W`, `y + crop_h ≤ H`, whose aspect ratio `crop_w / crop_h`
approximates `tw / th` within one pixel of rounding: the cross-multiplied
difference `crop_w * th - tw * crop_h` is at most `max tw th` in absolute
value, i.e. the rounded axis is within one pixel of the exact scaled
value. -/
theorem centerCrop_contained_and_aspect (W H tw th : ℕ)
    (hW : W ≠ 0) (hH : H ≠ 0) (htw : tw ≠ 0) (hth : th ≠ 0) :
    ∃ b, CenterAndCropBounds W H tw th = .ok b ∧
      b.x + b.width ≤ W ∧ b.y + b.height ≤ H ∧
      ((b.width : ℤ) * th - tw * (b.height : ℤ)).natAbs ≤ max tw th := by
  refine ⟨centerCropCandidate W H tw th, CenterAndCropBounds_ok W H tw th, ?_, ?_, ?_⟩
  · exact (centerCropCandidate_within W H tw th).1
  · exact (centerCropCandidate_within W H tw th).2
  · exact centerCropCandidate_aspect W H tw th htw hth

/-- Claim C3 witness: the property at the concrete frame 640 x 480 with a
224 x 224 target. -/
theorem centerCrop_contained_and_aspect_witness :
    640 ≠ 0 ∧ 480 ≠ 0 ∧ 224 ≠ 0 ∧
    ∃ b, CenterAndCropBounds 640 480 224 224 = .ok b ∧
      b.x + b.width ≤ 640 ∧ b.y + b.height ≤ 480 ∧
      ((b.width : ℤ) * 224 - 224 * (b.height : ℤ)).natAbs ≤ max 224 224 :=
  ⟨by decide, by decide, by decide,
    centerCrop_contained_and_aspect 640 480 224 224 (by decide) (by decide) (by decide) (by decide)⟩

/-- Claim C4: the center-crop computation agrees with the algorithm as the
specification states it (`computeCenterCropSpec`), and a `[1,3,224,224]`
tensor descriptor target applied to a single 640 x 480 frame yields the
rectangle `x = 80, y = 0, width = 480, height = 480`. -/
theorem centerCrop_matches_spec_algorithm :
    (∀ W H tw th : ℕ, CenterAndCropBounds W H tw th = .ok (computeCenterCropSpec W H tw th)) ∧
    CenterAndCropBounds 640 480 224 224 = .ok ⟨80, 0, 480, 480⟩ := by
  have hspec : ∀ W H tw th : ℕ, computeCenterCropSpec W H tw th = centerCropCandidate W H tw th :=
    fun _ _ _ _ => rfl
  constructor
  · intro W H tw th
    rw [hspec]
    exact CenterAndCropBounds_ok W H tw th
  · rw [CenterAndCropBounds_ok]
    have hround : roundHalfUp (480 : ℚ) = 480 := by
      have hfl : ⌊(480 : ℚ) + 1 / 2⌋ = 480 := by
        rw [Int.floor_eq_iff]
        constructor <;> norm_num
      unfold roundHalfUp
      rw [hfl]
      rfl
    simp only [centerCropCandidate]
    norm_num [hround]

lemma createImageTensorDescriptor_inv {k : TensorKind} {fmt : BitmapPixelFormat}
    {b w h : ℕ} {d : ImageTensorDescription}
    (hd : CreateImageTensorDescriptor k fmt b w h = .ok d) :
    d.sizes0 = b ∧ d.sizes2 = h ∧ d.sizes3 = w ∧ (d.sizes1 = 1 ∨ d.sizes1 = 3) := by
  unfold CreateImageTensorDescriptor at hd
  cases k <;> cases fmt <;> simp_all [GetTensorDataTypeFromTensorKind] <;> subst hd <;> simp

lemma createImageTensorDescriptor_ok {k : TensorKind} {fmt : BitmapPixelFormat} (b w h : ℕ)
    (hfmt : fmt = .rgba8 ∨ fmt = .bgra8 ∨ fmt = .gray8)
    (hk : k = .float ∨ k = .float16) :
    ∃ d, CreateImageTensorDescriptor k fmt b w h = .ok d := by
  rcases hk with rfl | rfl <;> rcases hfmt with rfl | rfl | rfl <;> exact ⟨_, rfl⟩

lemma resolvePixelFormat_override {ctx : BindingContext} {fmt : BitmapPixelFormat}
    (hov : ctx.properties.pixelFormatProp = some fmt)
    (hval : fmt = .rgba8 ∨ fmt = .bgra8 ∨ fmt = .gray8) :
    resolvePixelFormat ctx = .ok fmt := by
  unfold resolvePixelFormat GetBitmapPixelFormatFromMetadata
  rw [hov]
  dsimp only
  rw [if_pos hval]

lemma resolveBoundsFor_noOverride {v : ImageFeatureValueState} {ctx : BindingContext}
    (dW dH i : ℕ) (hbp : ctx.properties.boundsProp = none) :
    resolveBoundsFor v ctx dW dH i =
      .ok (match ctx.type with
        | .kInput => centerCropCandidate (v.widths.getD i 0) (v.heights.getD i 0) dW dH
        | .kOutput => ⟨0, 0, v.widths.getD i 0, v.heights.getD i 0⟩) := by
  unfold resolveBoundsFor GetBoundsFromMetadata
  rw [hbp]
  cases ctx.type
  · exact CenterAndCropBounds_ok ..
  · rfl

lemma resolveBoundsLoop_ok {v : ImageFeatureValueState} {ctx : BindingContext}
    (dW dH : ℕ) (hbp : ctx.properties.boundsProp = none) :
    ∀ n i, ∃ bs, resolveBoundsLoop v ctx dW dH i n = .ok bs ∧ bs.length = n := by
  intro n
  induction n with
  | zero => exact fun i => ⟨[], rfl, rfl⟩
  | succ n ih =>
    intro i
    obtain ⟨bs, hbs, hlen⟩ := ih (i + 1)
    refine ⟨(match ctx.type with
      | .kInput => centerCropCandidate (v.widths.getD i 0) (v.heights.getD i 0) dW dH
      | .kOutput => ⟨0, 0, v.widths.getD i 0, v.heights.getD i 0⟩) :: bs, ?_, by
        simpa using hlen⟩
    unfold resolveBoundsLoop
    rw [resolveBoundsFor_noOverride dW dH i hbp, hbs]

lemma resolveBoundsLoop_inv {v : ImageFeatureValueState} {ctx : BindingContext}
    {dW dH : ℕ} :
    ∀ n i bs, resolveBoundsLoop v ctx dW dH i n = .ok bs →
      bs.length = n ∧
      ∀ j, j < n → resolveBoundsFor v ctx dW dH (i + j) = .ok (bs.getD j ⟨0, 0, 0, 0⟩) := by
  intro n
  induction n with
  | zero =>
    intro i bs h
    unfold resolveBoundsLoop at h
    cases h
    exact ⟨rfl, fun j hj => absurd hj (Nat.not_lt_zero j)⟩
  | succ n ih =>
    intro i bs h
    unfold resolveBoundsLoop at h
    cases h1 : resolveBoundsFor v ctx dW dH i with
    | error e => rw [h1] at h; cases h
    | ok b =>
      rw [h1] at h
      cases h2 : resolveBoundsLoop v ctx dW dH (i + 1) n with
      | error e => rw [h2] at h; cases h
      | ok bs' =>
        rw [h2] at h
        cases h
        obtain ⟨hlen, hall⟩ := ih (i + 1) bs' h2
        refine ⟨by simpa using hlen, ?_⟩
        intro j hj
        match j with
        | 0 => simpa using h1
        | j + 1 =>
          have := hall j (by omega)
          rw [show i + (j + 1) = i + 1 + j by omega]
          simpa using this

lemma finishMetadata_success {v : ImageFeatureValueState} {ctx : BindingContext}
    (dW dH : ℕ) {k : TensorKind} {fmt : BitmapPixelFormat}
    (hbp : ctx.properties.boundsProp = none)
    (hpf : resolvePixelFormat ctx = .ok fmt)
    (hfmt : fmt = .rgba8 ∨ fmt = .bgra8 ∨ fmt = .gray8)
    (hk : k = .float ∨ k = .float16) :
    ∃ m, finishMetadata v ctx dW dH k = .ok (some m) ∧
      m.tensorDescriptor.sizes0 = v.batchSize ∧
      m.tensorDescriptor.sizes2 = dH ∧
      m.tensorDescriptor.sizes3 = dW ∧
      m.bounds.length = v.batchSize := by
  obtain ⟨bs, hbs, hlen⟩ := resolveBoundsLoop_ok dW dH hbp v.batchSize 0
  obtain ⟨d, hd⟩ := createImageTensorDescriptor_ok v.batchSize dW dH hfmt hk
  obtain ⟨h0, h2, h3, _⟩ := createImageTensorDescriptor_inv hd
  refine ⟨⟨bs, d⟩, ?_, h0, h2, h3, hlen⟩
  unfold finishMetadata resolveBounds
  rw [hbs, hpf]
  dsimp only
  rw [hd]

lemma getInputMetadata_image_char (v : ImageFeatureValueState) (t : BindingType)
    (dW dH : ℕ) (fmt : BitmapPixelFormat) (k : TensorKind)
    (hfmt : fmt = .rgba8 ∨ fmt = .bgra8 ∨ fmt = .gray8)
    (hk : k = .float ∨ k = .float16) :
    (GetInputMetadata v ⟨t, .image dW dH fmt k, ⟨none, none⟩⟩ = .error .invalidArg ↔
      (dW = MAXUINT32 ∧ allEqualAdjacent v.widths = false) ∨
      (dH = MAXUINT32 ∧ allEqualAdjacent v.heights = false)) ∧
    (¬((dW = MAXUINT32 ∧ allEqualAdjacent v.widths = false) ∨
       (dH = MAXUINT32 ∧ allEqualAdjacent v.heights = false)) →
      ∃ m, GetInputMetadata v ⟨t, .image dW dH fmt k, ⟨none, none⟩⟩ = .ok (some m) ∧
        m.tensorDescriptor.sizes3 = (if dW = MAXUINT32 then v.widths.headD 0 else dW) ∧
        m.tensorDescriptor.sizes2 = (if dH = MAXUINT32 then v.heights.headD 0 else dH)) := by
  have hunf : GetInputMetadata v ⟨t, .image dW dH fmt k, ⟨none, none⟩⟩ =
      (if dW = MAXUINT32 ∧ allEqualAdjacent v.widths = false then .error .invalidArg
       else if dH = MAXUINT32 ∧ allEqualAdjacent v.heights = false then .error .invalidArg
       else finishMetadata v ⟨t, .image dW dH fmt k, ⟨none, none⟩⟩
         (if dW = MAXUINT32 then v.widths.headD 0 else dW)
         (if dH = MAXUINT32 then v.heights.headD 0 else dH) k) := rfl
  by_cases h1 : dW = MAXUINT32 ∧ allEqualAdjacent v.widths = false
  · rw [hunf, if_pos h1]
    exact ⟨⟨fun _ => Or.inl h1, fun _ => rfl⟩, fun hcon => absurd (Or.inl h1) hcon⟩
  · by_cases h2 : dH = MAXUINT32 ∧ allEqualAdjacent v.heights = false
    · rw [hunf, if_neg h1, if_pos h2]
      exact ⟨⟨fun _ => Or.inr h2, fun _ => rfl⟩, fun hcon => absurd (Or.inr h2) hcon⟩
    · rw [hunf, if_neg h1, if_neg h2]
      have hpfI : resolvePixelFormat ⟨t, .image dW dH fmt k, ⟨none, none⟩⟩ = .ok fmt := rfl
      obtain ⟨m, hm, _, hs2, hs3, _⟩ := finishMetadata_success _ _ rfl hpfI hfmt hk
      refine ⟨⟨fun herr => ?_, fun hor => (hor.elim (fun a => absurd a h1) (fun b => absurd b h2))⟩,
        fun _ => ⟨m, hm, hs3, hs2⟩⟩
      rw [hm] at herr
      cases herr

lemma getInputMetadata_tensor_char (v : ImageFeatureValueState) (t : BindingType)
    (s0 c sh sw : Int) (k : TensorKind)
    (hc : c = 1 ∨ c = 3)
    (hk : k = .float ∨ k = .float16) :
    (GetInputMetadata v ⟨t, .tensor [s0, c, sh, sw] k, ⟨none, none⟩⟩ = .error .invalidArg ↔
      (sw = -1 ∧ allEqualAdjacent v.widths = false) ∨
      (sh = -1 ∧ allEqualAdjacent v.heights = false)) ∧
    (¬((sw = -1 ∧ allEqualAdjacent v.widths = false) ∨
       (sh = -1 ∧ allEqualAdjacent v.heights = false)) →
      ∃ m, GetInputMetadata v ⟨t, .tensor [s0, c, sh, sw] k, ⟨none, none⟩⟩ = .ok (some m) ∧
        m.tensorDescriptor.sizes3 = (if sw = -1 then v.widths.headD 0 else intToUInt32 sw) ∧
        m.tensorDescriptor.sizes2 = (if sh = -1 then v.heights.headD 0 else intToUInt32 sh)) := by
  have hch : ¬¬(c = 3 ∨ c = 1) := not_not_intro (hc.elim (fun h => Or.inr h) (fun h => Or.inl h))
  have hunf : GetInputMetadata v ⟨t, .tensor [s0, c, sh, sw] k, ⟨none, none⟩⟩ =
      (if ¬(c = 3 ∨ c = 1) then .ok none
       else if sw = -1 ∧ allEqualAdjacent v.widths = false then .error .invalidArg
       else if sh = -1 ∧ allEqualAdjacent v.heights = false then .error .invalidArg
       else finishMetadata v ⟨t, .tensor [s0, c, sh, sw] k, ⟨none, none⟩⟩
         (if sw = -1 then v.widths.headD 0 else intToUInt32 sw)
         (if sh = -1 then v.heights.headD 0 else intToUInt32 sh) k) := rfl
  rw [hunf, if_neg hch]
  by_cases h1 : sw = -1 ∧ allEqualAdjacent v.widths = false
  · rw [if_pos h1]
    exact ⟨⟨fun _ => Or.inl h1, fun _ => rfl⟩, fun hcon => absurd (Or.inl h1) hcon⟩
  · by_cases h2 : sh = -1 ∧ allEqualAdjacent v.heights = false
    · rw [if_neg h1, if_pos h2]
      exact ⟨⟨fun _ => Or.inr h2, fun _ => rfl⟩, fun hcon => absurd (Or.inr h2) hcon⟩
    · rw [if_neg h1, if_neg h2]
      have hpfT : ∃ fmt, resolvePixelFormat ⟨t, .tensor [s0, c, sh, sw] k, ⟨none, none⟩⟩ = .ok fmt ∧
          (fmt = .rgba8 ∨ fmt = .bgra8 ∨ fmt = .gray8) := by
        rcases hc with rfl | rfl
        · exact ⟨.gray8, rfl, Or.inr (Or.inr rfl)⟩
        · exact ⟨.bgra8, rfl, Or.inr (Or.inl rfl)⟩
      obtain ⟨fmt', hpf, hfmt'⟩ := hpfT
      obtain ⟨m, hm, _, hs2, hs3, _⟩ := finishMetadata_success _ _ rfl hpf hfmt' hk
      refine ⟨⟨fun herr => ?_, fun hor => (hor.elim (fun a => absurd a h1) (fun b => absurd b h2))⟩,
        fun _ => ⟨m, hm, hs3, hs2⟩⟩
      rw [hm] at herr
      cases herr

/-- Claim C2: for a descriptor with a free spatial axis (image-shaped
`MAXUINT32` sentinel or tensor-shaped `-1`), metadata resolution fails
with `E_INVALIDARG` if and only if some free axis has disagreeing frame
values; when all free axes agree, resolution succeeds and each free axis
resolves to the frames' shared value (the first frame's value). -/
theorem freeDimension_agreement (v : ImageFeatureValueState) (t : BindingType)
    (dW dH : ℕ) (fmt : BitmapPixelFormat) (k : TensorKind) (s0 c sh sw : Int)
    (hfmt : fmt = .rgba8 ∨ fmt = .bgra8 ∨ fmt = .gray8)
    (hk : k = .float ∨ k = .float16)
    (hc : c = 1 ∨ c = 3) :
    ((GetInputMetadata v ⟨t, .image dW dH fmt k, ⟨none, none⟩⟩ = .error .invalidArg ↔
      (dW = MAXUINT32 ∧ allEqualAdjacent v.widths = false) ∨
      (dH = MAXUINT32 ∧ allEqualAdjacent v.heights = false)) ∧
     (¬((dW = MAXUINT32 ∧ allEqualAdjacent v.widths = false) ∨
        (dH = MAXUINT32 ∧ allEqualAdjacent v.heights = false)) →
       ∃ m, GetInputMetadata v ⟨t, .image dW dH fmt k, ⟨none, none⟩⟩ = .ok (some m) ∧
         m.tensorDescriptor.sizes3 = (if dW = MAXUINT32 then v.widths.headD 0 else dW) ∧
         m.tensorDescriptor.sizes2 = (if dH = MAXUINT32 then v.heights.headD 0 else dH))) ∧
    ((GetInputMetadata v ⟨t, .tensor [s0, c, sh, sw] k, ⟨none, none⟩⟩ = .error .invalidArg ↔
      (sw = -1 ∧ allEqualAdjacent v.widths = false) ∨
      (sh = -1 ∧ allEqualAdjacent v.heights = false)) ∧
     (¬((sw = -1 ∧ allEqualAdjacent v.widths = false) ∨
        (sh = -1 ∧ allEqualAdjacent v.heights = false)) →
       ∃ m, GetInputMetadata v ⟨t, .tensor [s0, c, sh, sw] k, ⟨none, none⟩⟩ = .ok (some m) ∧
         m.tensorDescriptor.sizes3 = (if sw = -1 then v.widths.headD 0 else intToUInt32 sw) ∧
         m.tensorDescriptor.sizes2 = (if sh = -1 then v.heights.headD 0 else intToUInt32 sh))) :=
  ⟨getInputMetadata_image_char v t dW dH fmt k hfmt hk,
   getInputMetadata_tensor_char v t s0 c sh sw k hc hk⟩

/-- Claim C2 witness: three 100 x 200 frames against a free-width and
free-height image descriptor resolve to `descriptorWidth = 100` (NCHW
`sizes[3]`) and `descriptorHeight = 200` (`sizes[2]`); a batch mixing a
100-wide and a 150-wide frame fails with `E_INVALIDARG`. -/
theorem freeDimension_agreement_witness :
    (∃ m, GetInputMetadata ⟨[100, 100, 100], [200, 200, 200]⟩
        ⟨.kOutput, .image MAXUINT32 MAXUINT32 .bgra8 .float, ⟨none, none⟩⟩ = .ok (some m) ∧
        m.tensorDescriptor.sizes3 = 100 ∧ m.tensorDescriptor.sizes2 = 200) ∧
    GetInputMetadata ⟨[100, 150], [200, 200]⟩
      ⟨.kOutput, .image MAXUINT32 MAXUINT32 .bgra8 .float, ⟨none, none⟩⟩ = .error .invalidArg := by
  constructor
  · obtain ⟨m, hm, hs3, hs2⟩ := ((freeDimension_agreement ⟨[100, 100, 100], [200, 200, 200]⟩
      .kOutput MAXUINT32 MAXUINT32 .bgra8 .float 1 3 (-1) (-1)
      (Or.inr (Or.inl rfl)) (Or.inl rfl) (Or.inr rfl)).1).2 (by decide)
    exact ⟨m, hm, by simpa using hs3, by simpa using hs2⟩
  · exact (((freeDimension_agreement ⟨[100, 150], [200, 200]⟩ .kOutput MAXUINT32 MAXUINT32
      .bgra8 .float 1 3 (-1) (-1) (Or.inr (Or.inl rfl)) (Or.inl rfl) (Or.inr rfl)).1).1).mpr
      (Or.inl ⟨rfl, by decide⟩)

/-- Claim C5 counterexample: a bounds override of `{0, 0, 5000, 5000}`
against a single 100 x 100 frame is taken into the resolved
crop-rectangle list unvalidated, and that rectangle does not lie within
the frame (`0 + 5000 > 100`). -/
theorem overrideBounds_escape_counterexample :
    GetInputMetadata ⟨[100], [100]⟩
      ⟨.kInput, .image 50 50 .bgra8 .float, ⟨none, some [0, 0, 5000, 5000]⟩⟩ =
      .ok (some ⟨[⟨0, 0, 5000, 5000⟩], ⟨.float32, .bgr8, 1, 3, 50, 50⟩⟩) ∧
    ¬((0 : ℕ) + 5000 ≤ 100) :=
  ⟨rfl, by decide⟩

lemma getInputMetadata_ok_inv {v : ImageFeatureValueState} {ctx : BindingContext}
    {m : ImageResourceMetadata} (h : GetInputMetadata v ctx = .ok (some m)) :
    ∃ dW dH k, finishMetadata v ctx dW dH k = .ok (some m) := by
  rcases hctx : ctx with ⟨t, d, p⟩
  rw [hctx] at h
  cases d with
  | image dW dH fmt k =>
    unfold GetInputMetadata at h
    dsimp only at h
    split at h
    · cases h
    · split at h
      · cases h
      · exact ⟨_, _, _, h⟩
  | tensor shape k =>
    unfold GetInputMetadata at h
    dsimp only at h
    split at h
    · cases h
    · split at h
      · cases h
      · split at h
        · cases h
        · split at h
          · cases h
          · exact ⟨_, _, _, h⟩
  | otherDescriptor =>
    unfold GetInputMetadata at h
    cases h

lemma finishMetadata_ok_inv {v : ImageFeatureValueState} {ctx : BindingContext}
    {dW dH : ℕ} {k : TensorKind} {m : ImageResourceMetadata}
    (h : finishMetadata v ctx dW dH k = .ok (some m)) :
    resolveBounds v ctx dW dH = .ok m.bounds ∧
    ∃ fmt, resolvePixelFormat ctx = .ok fmt ∧
      CreateImageTensorDescriptor k fmt v.batchSize dW dH = .ok m.tensorDescriptor := by
  unfold finishMetadata at h
  cases hbs : resolveBounds v ctx dW dH with
  | error e => rw [hbs] at h; exact Except.noConfusion h
  | ok bs =>
    rw [hbs] at h
    dsimp only at h
    cases hpf : resolvePixelFormat ctx with
    | error e => rw [hpf] at h; exact Except.noConfusion h
    | ok fmt =>
      rw [hpf] at h
      dsimp only at h
      cases hcd : CreateImageTensorDescriptor k fmt v.batchSize dW dH with
      | error e => rw [hcd] at h; exact Except.noConfusion h
      | ok d =>
        rw [hcd] at h
        dsimp only at h
        have h3 : ImageResourceMetadata.mk bs d = m := by
          injection h with h4
          injection h4
        rw [← h3]
        exact ⟨rfl, fmt, rfl, hcd⟩

/-- Claim C5 (amended): when the property bag carries no bounds override,
every rectangle in the resolved crop-rectangle list lies within its frame
(the center-crop rectangle for inputs, the full-frame rectangle for
outputs); an explicit bounds override, however, is passed through to the
list unvalidated. -/
theorem resolver_computed_bounds_within (v : ImageFeatureValueState)
    (ctx : BindingContext) (m : ImageResourceMetadata) (i : ℕ)
    (hbp : ctx.properties.boundsProp = none)
    (hok : GetInputMetadata v ctx = .ok (some m)) :
    (m.bounds.getD i ⟨0, 0, 0, 0⟩).x + (m.bounds.getD i ⟨0, 0, 0, 0⟩).width ≤ v.widths.getD i 0 ∧
    (m.bounds.getD i ⟨0, 0, 0, 0⟩).y + (m.bounds.getD i ⟨0, 0, 0, 0⟩).height ≤ v.heights.getD i 0 := by
  obtain ⟨dW, dH, k, hfm⟩ := getInputMetadata_ok_inv hok
  obtain ⟨hbs, -⟩ := finishMetadata_ok_inv hfm
  obtain ⟨hlen, hall⟩ := resolveBoundsLoop_inv v.batchSize 0 m.bounds hbs
  by_cases hi : i < v.batchSize
  · have hfor := hall i hi
    rw [resolveBoundsFor_noOverride dW dH (0 + i) hbp] at hfor
    injection hfor with hval
    rw [Nat.zero_add] at hval
    cases ht : ctx.type
    · rw [ht] at hval
      dsimp only at hval
      rw [← hval]
      exact centerCropCandidate_within (v.widths.getD i 0) (v.heights.getD i 0) dW dH
    · rw [ht] at hval
      dsimp only at hval
      rw [← hval]
      simp
  · have hout : m.bounds.getD i ⟨0, 0, 0, 0⟩ = ⟨0, 0, 0, 0⟩ :=
      List.getD_eq_default _ _ (by omega)
    rw [hout]
    simp

/-- Claim C5 (amended) witness: a two-frame 100 x 50 batch bound as output
with no override resolves to full-frame rectangles that lie within each
frame. -/
theorem resolver_computed_bounds_within_witness :
    ((ImageResourceMetadata.mk [⟨0, 0, 100, 50⟩, ⟨0, 0, 100, 50⟩]
        ⟨.float32, .bgr8, 2, 3, 10, 10⟩).bounds.getD 0 ⟨0, 0, 0, 0⟩).x +
      ((ImageResourceMetadata.mk [⟨0, 0, 100, 50⟩, ⟨0, 0, 100, 50⟩]
        ⟨.float32, .bgr8, 2, 3, 10, 10⟩).bounds.getD 0 ⟨0, 0, 0, 0⟩).width ≤
      (ImageFeatureValueState.mk [100, 100] [50, 50]).widths.getD 0 0 ∧
    ((ImageResourceMetadata.mk [⟨0, 0, 100, 50⟩, ⟨0, 0, 100, 50⟩]
        ⟨.float32, .bgr8, 2, 3, 10, 10⟩).bounds.getD 0 ⟨0, 0, 0, 0⟩).y +
      ((ImageResourceMetadata.mk [⟨0, 0, 100, 50⟩, ⟨0, 0, 100, 50⟩]
        ⟨.float32, .bgr8, 2, 3, 10, 10⟩).bounds.getD 0 ⟨0, 0, 0, 0⟩).height ≤
      (ImageFeatureValueState.mk [100, 100] [50, 50]).heights.getD 0 0 :=
  resolver_computed_bounds_within ⟨[100, 100], [50, 50]⟩
    ⟨.kOutput, .image 10 10 .bgra8 .float, ⟨none, none⟩⟩
    ⟨[⟨0, 0, 100, 50⟩, ⟨0, 0, 100, 50⟩], ⟨.float32, .bgr8, 2, 3, 10, 10⟩⟩ 0 rfl rfl

lemma resolveBoundsFor_descriptor_irrel (v : ImageFeatureValueState) (t : BindingType)
    (d1 d2 : FeatureDescriptor) (p : PropertySet) (dW dH i : ℕ) :
    resolveBoundsFor v ⟨t, d1, p⟩ dW dH i = resolveBoundsFor v ⟨t, d2, p⟩ dW dH i := rfl

lemma resolveBoundsLoop_descriptor_irrel (v : ImageFeatureValueState) (t : BindingType)
    (d1 d2 : FeatureDescriptor) (p : PropertySet) (dW dH : ℕ) :
    ∀ n i, resolveBoundsLoop v ⟨t, d1, p⟩ dW dH i n = resolveBoundsLoop v ⟨t, d2, p⟩ dW dH i n := by
  intro n
  induction n with
  | zero => intro i; rfl
  | succ n ih =>
    intro i
    unfold resolveBoundsLoop
    rw [resolveBoundsFor_descriptor_irrel v t d1 d2 p dW dH i, ih (i + 1)]

lemma finishMetadata_descriptor_congr (v : ImageFeatureValueState) (t : BindingType)
    (d1 d2 : FeatureDescriptor) (p : PropertySet) (dW dH : ℕ) (k : TensorKind)
    (hpf : resolvePixelFormat ⟨t, d1, p⟩ = resolvePixelFormat ⟨t, d2, p⟩) :
    finishMetadata v ⟨t, d1, p⟩ dW dH k = finishMetadata v ⟨t, d2, p⟩ dW dH k := by
  unfold finishMetadata resolveBounds
  rw [resolveBoundsLoop_descriptor_irrel v t d1 d2 p dW dH, hpf]

/-- Claim C6: with a valid pixel-format override in the property bag, the
resolved pixel format equals the override, and resolution is independent
of the image descriptor's declared format: two binding contexts differing
only in the declared format resolve to identical results. -/
theorem pixelFormatOverride_noninterference (v : ImageFeatureValueState) (t : BindingType)
    (dW dH : ℕ) (f1 f2 : BitmapPixelFormat) (k : TensorKind) (bp : Option (List ℕ))
    (fmt : BitmapPixelFormat)
    (hval : fmt = .rgba8 ∨ fmt = .bgra8 ∨ fmt = .gray8) :
    resolvePixelFormat ⟨t, .image dW dH f1 k, ⟨some fmt, bp⟩⟩ = .ok fmt ∧
    GetInputMetadata v ⟨t, .image dW dH f1 k, ⟨some fmt, bp⟩⟩ =
      GetInputMetadata v ⟨t, .image dW dH f2 k, ⟨some fmt, bp⟩⟩ := by
  have hr1 : resolvePixelFormat ⟨t, .image dW dH f1 k, ⟨some fmt, bp⟩⟩ = .ok fmt :=
    resolvePixelFormat_override rfl hval
  have hr2 : resolvePixelFormat ⟨t, .image dW dH f2 k, ⟨some fmt, bp⟩⟩ = .ok fmt :=
    resolvePixelFormat_override rfl hval
  refine ⟨hr1, ?_⟩
  have hfm := finishMetadata_descriptor_congr v t (.image dW dH f1 k) (.image dW dH f2 k)
    ⟨some fmt, bp⟩ (if dW = MAXUINT32 then v.widths.headD 0 else dW)
    (if dH = MAXUINT32 then v.heights.headD 0 else dH) k (hr1.trans hr2.symm)
  show (if dW = MAXUINT32 ∧ allEqualAdjacent v.widths = false then Except.error WinMLError.invalidArg
    else if dH = MAXUINT32 ∧ allEqualAdjacent v.heights = false then Except.error WinMLError.invalidArg
    else finishMetadata v ⟨t, .image dW dH f1 k, ⟨some fmt, bp⟩⟩
      (if dW = MAXUINT32 then v.widths.headD 0 else dW)
      (if dH = MAXUINT32 then v.heights.headD 0 else dH) k) =
    GetInputMetadata v ⟨t, .image dW dH f2 k, ⟨some fmt, bp⟩⟩
  rw [hfm]
  rfl

/-- Claim C6 witness: with a `Gray8` override, a descriptor declaring
`Rgba8` and one declaring the unsupported `Yuy2` resolve identically, and
the resolved format is the override. -/
theorem pixelFormatOverride_noninterference_witness :
    resolvePixelFormat ⟨.kOutput, .image 5 5 .rgba8 .float, ⟨some .gray8, none⟩⟩ = .ok .gray8 ∧
    GetInputMetadata ⟨[10], [10]⟩ ⟨.kOutput, .image 5 5 .rgba8 .float, ⟨some .gray8, none⟩⟩ =
      GetInputMetadata ⟨[10], [10]⟩ ⟨.kOutput, .image 5 5 .yuy2 .float, ⟨some .gray8, none⟩⟩ :=
  pixelFormatOverride_noninterference ⟨[10], [10]⟩ .kOutput 5 5 .rgba8 .yuy2 .float none .gray8
    (Or.inr (Or.inr rfl))

lemma getInputMetadata_batch {v : ImageFeatureValueState} {ctx : BindingContext}
    {m : ImageResourceMetadata} (h : GetInputMetadata v ctx = .ok (some m)) :
    m.tensorDescriptor.sizes0 = v.batchSize ∧ m.bounds.length = v.batchSize := by
  obtain ⟨dW, dH, k, hfm⟩ := getInputMetadata_ok_inv h
  obtain ⟨hbs, fmt, -, hcd⟩ := finishMetadata_ok_inv hfm
  obtain ⟨h0, -, -, -⟩ := createImageTensorDescriptor_inv hcd
  obtain ⟨hlen, -⟩ := resolveBoundsLoop_inv v.batchSize 0 m.bounds hbs
  exact ⟨h0, hlen⟩

lemma cpuTensorizeBatch_length (b p s : ℕ) :
    ∀ n, (CPUTensorizeBatch b p s n).length = n := by
  intro n
  induction n generalizing b p with
  | zero => rfl
  | succ n ih => simpa [CPUTensorizeBatch] using ih (b + 1) (p + s)

lemma cpuTensorizeBatch_getD (s : ℕ) :
    ∀ n b p i, i < n →
      (CPUTensorizeBatch b p s n).getD i ⟨0, 0⟩ = ⟨b + i, p + i * s⟩ := by
  intro n
  induction n with
  | zero => intro b p i hi; omega
  | succ n ih =>
    intro b p i hi
    match i with
    | 0 => simp [CPUTensorizeBatch]
    | i + 1 =>
      have hrec := ih (b + 1) (p + s) i (by omega)
      show (CPUTensorizeBatch b p s (n + 1)).getD (i + 1) ⟨0, 0⟩ = _
      unfold CPUTensorizeBatch
      rw [List.getD_cons_succ, hrec]
      have h1 : b + 1 + i = b + (i + 1) := by omega
      have h2 : p + s + i * s = p + (i + 1) * s := by
        rw [Nat.succ_mul]
        omega
      rw [h1, h2]

/-- Claim C7: on the CPU tensorization path, the allocated buffer's byte
size equals `elementSize(dtype) * batch * channels * height * width`, the
batch size divides it exactly, the per-frame size is the exact quotient,
and frame `i`'s bytes are written at offset `i * per_frame_byte_size` in
batch order. -/
theorem cpuTensorize_frame_offsets (v : ImageFeatureValueState) (ctx : BindingContext)
    (r : BindResult) (hin : ctx.type = .kInput)
    (hok : GetOrtValue v ctx true = .ok r) :
    r.bufferByteSize = GetSizeFromTensorDataType r.metadata.tensorDescriptor.dataType *
      (r.metadata.tensorDescriptor.sizes0 * r.metadata.tensorDescriptor.sizes1 *
       r.metadata.tensorDescriptor.sizes2 * r.metadata.tensorDescriptor.sizes3) ∧
    r.metadata.tensorDescriptor.sizes0 = v.batchSize ∧
    v.batchSize ∣ r.bufferByteSize ∧
    r.singleFrameBufferSize = r.bufferByteSize / v.batchSize ∧
    r.cpuWrites.length = v.batchSize ∧
    ∀ i, i < v.batchSize → r.cpuWrites.getD i ⟨0, 0⟩ = ⟨i, i * r.singleFrameBufferSize⟩ := by
  unfold GetOrtValue at hok
  split at hok
  · exact Except.noConfusion hok
  · split at hok
    · exact Except.noConfusion hok
    · cases hmd : GetInputMetadata v ctx with
      | error e => rw [hmd] at hok; exact Except.noConfusion hok
      | ok mo =>
        rw [hmd] at hok
        cases mo with
        | none => exact Except.noConfusion hok
        | some resourceMetadata =>
          dsimp only at hok
          rw [hin] at hok
          dsimp only at hok
          have hr : BindResult.mk resourceMetadata
              (GetSizeFromTensorDataType resourceMetadata.tensorDescriptor.dataType *
                (resourceMetadata.tensorDescriptor.sizes0 * resourceMetadata.tensorDescriptor.sizes1 *
                 resourceMetadata.tensorDescriptor.sizes2 * resourceMetadata.tensorDescriptor.sizes3))
              (GetSizeFromTensorDataType resourceMetadata.tensorDescriptor.dataType *
                (resourceMetadata.tensorDescriptor.sizes0 * resourceMetadata.tensorDescriptor.sizes1 *
                 resourceMetadata.tensorDescriptor.sizes2 * resourceMetadata.tensorDescriptor.sizes3) /
                v.batchSize)
              (CPUTensorizeBatch 0 0
                (GetSizeFromTensorDataType resourceMetadata.tensorDescriptor.dataType *
                  (resourceMetadata.tensorDescriptor.sizes0 * resourceMetadata.tensorDescriptor.sizes1 *
                   resourceMetadata.tensorDescriptor.sizes2 * resourceMetadata.tensorDescriptor.sizes3) /
                  v.batchSize)
                v.batchSize)
              ⟨none, []⟩ = r := by
            exact congrArg (fun x : Except WinMLError BindResult =>
              match x with | .ok y => y | .error _ => BindResult.mk resourceMetadata 0 0 [] ⟨none, []⟩) hok
          obtain ⟨hs0, -⟩ := getInputMetadata_batch hmd
          rw [← hr]
          refine ⟨rfl, hs0, ?_, rfl, cpuTensorizeBatch_length 0 0 _ v.batchSize, ?_⟩
          · rw [hs0]
            exact ⟨GetSizeFromTensorDataType resourceMetadata.tensorDescriptor.dataType *
              (resourceMetadata.tensorDescriptor.sizes1 * resourceMetadata.tensorDescriptor.sizes2 *
               resourceMetadata.tensorDescriptor.sizes3), by ring⟩
          · intro i hi
            rw [cpuTensorizeBatch_getD _ v.batchSize 0 0 i hi]
            simp

/-- Claim C7 witness: a single 2 x 2 frame bound as input on a CPU device
with explicit overrides; the buffer holds 48 bytes (= 4 * 1 * 3 * 2 * 2),
the batch divides it, and frame 0 is written at offset 0. -/
theorem cpuTensorize_frame_offsets_witness :
    GetOrtValue ⟨[2], [2]⟩ ⟨.kInput, .image 2 2 .bgra8 .float, ⟨some .bgra8, some [0, 0, 2, 2]⟩⟩ true
      = .ok ⟨⟨[⟨0, 0, 2, 2⟩], ⟨.float32, .bgr8, 1, 3, 2, 2⟩⟩, 48, 48, [⟨0, 0⟩], ⟨none, []⟩⟩ ∧
    (1 : ℕ) ∣ 48 ∧ [FrameWrite.mk 0 0].getD 0 ⟨0, 0⟩ = ⟨0, 0 * 48⟩ := by
  have h := cpuTensorize_frame_offsets ⟨[2], [2]⟩
    ⟨.kInput, .image 2 2 .bgra8 .float, ⟨some .bgra8, some [0, 0, 2, 2]⟩⟩
    ⟨⟨[⟨0, 0, 2, 2⟩], ⟨.float32, .bgr8, 1, 3, 2, 2⟩⟩, 48, 48, [⟨0, 0⟩], ⟨none, []⟩⟩ rfl rfl
  exact ⟨rfl, h.2.2.1, h.2.2.2.2.2 0 (by decide)⟩

/-- Claim C8: a tensor-shaped descriptor whose shape does not have exactly
4 axes makes the resolver decline with the soft not-applicable outcome
`.ok none` — an absent result, not an error — and the bind entry point
`GetOrtValue` then reports `E_INVALIDARG` without binding. -/
theorem wrongRank_soft_decline (v : ImageFeatureValueState) (t : BindingType)
    (props : PropertySet) (shape : List Int) (k : TensorKind) (dev : Bool)
    (hlen : shape.length ≠ 4)
    (hw : v.widths.all (fun i => i != 0) = true)
    (hh : v.heights.all (fun i => i != 0) = true) :
    GetInputMetadata v ⟨t, .tensor shape k, props⟩ = .ok none ∧
    GetOrtValue v ⟨t, .tensor shape k, props⟩ dev = .error .invalidArg := by
  have h1 : GetInputMetadata v ⟨t, .tensor shape k, props⟩ = .ok none := by
    unfold GetInputMetadata
    dsimp only
    rw [if_pos hlen]
  refine ⟨h1, ?_⟩
  unfold GetOrtValue
  rw [hw, hh, h1]
  rfl

/-- Claim C8 witness: a rank-3 tensor descriptor against a single 10 x 10
frame. -/
theorem wrongRank_soft_decline_witness :
    GetInputMetadata ⟨[10], [10]⟩ ⟨.kOutput, .tensor [1, 3, 224] .float, ⟨none, none⟩⟩ = .ok none ∧
    GetOrtValue ⟨[10], [10]⟩ ⟨.kOutput, .tensor [1, 3, 224] .float, ⟨none, none⟩⟩ false =
      .error .invalidArg :=
  wrongRank_soft_decline ⟨[10], [10]⟩ .kOutput ⟨none, none⟩ [1, 3, 224] .float false
    (by decide) (by decide) (by decide)

/-- Claim C9 counterexample: a rank-4 tensor descriptor with channel count
2 makes metadata resolution return the soft not-applicable outcome
`.ok none`, not a `WINML_ERR_SIZE_MISMATCH` error as the claim states. -/
theorem channelCount_sizeMismatch_counterexample :
    GetInputMetadata ⟨[32], [32]⟩ ⟨.kInput, .tensor [1, 2, 32, 32] .float, ⟨none, none⟩⟩ =
      .ok none ∧
    GetInputMetadata ⟨[32], [32]⟩ ⟨.kInput, .tensor [1, 2, 32, 32] .float, ⟨none, none⟩⟩ ≠
      .error .sizeMismatch := by
  refine ⟨rfl, ?_⟩
  intro h
  rw [show GetInputMetadata ⟨[32], [32]⟩ ⟨.kInput, .tensor [1, 2, 32, 32] .float, ⟨none, none⟩⟩ =
    .ok none from rfl] at h
  exact Except.noConfusion h

/-- Claim C9 (amended): a rank-4 tensor-shaped descriptor whose channel
axis (`shape[1]`) is outside `{1, 3}` makes the resolver decline with the
soft not-applicable outcome `.ok none` (exactly as for a wrong rank); the
`WINML_ERR_SIZE_MISMATCH` throw in pixel-format inference is unreachable
for such descriptors. -/
theorem badChannelCount_soft_decline (v : ImageFeatureValueState) (t : BindingType)
    (props : PropertySet) (shape : List Int) (k : TensorKind)
    (hlen : shape.length = 4)
    (hc : ¬(shape.getD 1 0 = 3 ∨ shape.getD 1 0 = 1)) :
    GetInputMetadata v ⟨t, .tensor shape k, props⟩ = .ok none := by
  unfold GetInputMetadata
  dsimp only
  rw [if_neg (not_not_intro hlen), if_pos hc]

/-- Claim C9 (amended) witness: shape `[1, 5, 64, 64]`. -/
theorem badChannelCount_soft_decline_witness :
    GetInputMetadata ⟨[64], [64]⟩ ⟨.kInput, .tensor [1, 5, 64, 64] .float, ⟨none, none⟩⟩ =
      .ok none :=
  badChannelCount_soft_decline ⟨[64], [64]⟩ .kInput ⟨none, none⟩ [1, 5, 64, 64] .float
    (by decide) (by decide)

/-- Claim C10: for any binding context the resolver declines (`.ok none`),
the tensor-readback entry point `UpdateSourceResourceData` dereferences
the absent metadata with `metadata.value()` and fails with
`bad_optional_access`, never producing the typed `E_INVALIDARG` outcome
that the bind entry point `GetOrtValue` produces for the same context. -/
theorem declinedResolution_unguarded_access (v : ImageFeatureValueState)
    (ctx : BindingContext) (memLoc : MemoryKind) (dev : Bool)
    (hdecl : GetInputMetadata v ctx = .ok none)
    (hw : v.widths.all (fun i => i != 0) = true)
    (hh : v.heights.all (fun i => i != 0) = true) :
    UpdateSourceResourceData v ctx memLoc = .error .badOptionalAccess ∧
    GetOrtValue v ctx dev = .error .invalidArg ∧
    WinMLError.badOptionalAccess ≠ WinMLError.invalidArg := by
  refine ⟨?_, ?_, by decide⟩
  · unfold UpdateSourceResourceData
    rw [hdecl]
  · unfold GetOrtValue
    rw [hw, hh, hdecl]
    rfl

/-- Claim C10 witness: a rank-3 tensor descriptor bound to a single 8 x 8
frame. -/
theorem declinedResolution_unguarded_access_witness :
    UpdateSourceResourceData ⟨[8], [8]⟩ ⟨.kOutput, .tensor [2, 3, 8] .float, ⟨none, none⟩⟩
      .gpuResident = .error .badOptionalAccess ∧
    GetOrtValue ⟨[8], [8]⟩ ⟨.kOutput, .tensor [2, 3, 8] .float, ⟨none, none⟩⟩ false =
      .error .invalidArg ∧
    WinMLError.badOptionalAccess ≠ WinMLError.invalidArg :=
  declinedResolution_unguarded_access ⟨[8], [8]⟩
    ⟨.kOutput, .tensor [2, 3, 8] .float, ⟨none, none⟩⟩ .gpuResident false rfl
    (by decide) (by decide)

/-- Claim C1 (failing execution): GPU-path tensorization of a two-frame
batch returns the converter wrapper fetched for frame 0 to the pool the
moment frame 1's wrapper overwrites the binding context's single
converter slot — during tensorization, before any completion signal; only
frame 1's wrapper is still held on the context for `EvaluateComplete` to
release.  This contradicts the claim (and the source's own comment) that
none of the fetched converters is returned until the caller signals that
the run has finished. -/
theorem gpuTensorize_early_release :
    GPUTensorize 2 none = ⟨some 1, [0]⟩ ∧
    (GPUTensorize 2 none).returnedToPool ≠ [] ∧
    EvaluateComplete (GPUTensorize 2 none) = ⟨none, [0, 1]⟩ := by
  decide
